import Mathlib

/-!
Verification of the Car_Hire_System backend core: booking lifecycle,
payment refunds, pricing, add-on charges, invoice numbering, vehicle
availability and logout behaviour, embedded shallowly from the Django
models and admin actions of the repository.

Conventions of the embedding:
* `DecimalField` money values are exact decimals, embedded as `Rat`.
* `DateTimeField` values are embedded as `Int` (seconds since an epoch);
  `datetime.now()` becomes an explicit `now : Int` argument.
* A Django admin bulk action `queryset.filter(...).update(...)` acts row
  by row: a row matching the filter is updated, a row not matching is left
  untouched.  Per row this is an `Option`-valued function: `some b'` when
  the row matched the filter and was updated to `b'`, `none` when the row
  was filtered out and left unchanged.
* Python exceptions are embedded as `Except String`.
-/

namespace CarHire

/-- Booking rows (`bookings/models.py`, class `Booking`), restricted to the
fields the verified properties touch.  Field defaults mirror the Django
field declarations (`status` defaults to `'pending'`, the money adjustment
fields default to `0`, the cancellation metadata defaults to `NULL`). -/
structure Booking where
  status : String := "pending"
  pickup_date : Int
  return_date : Int
  cancelled_at : Option Int := none
  cancellation_reason : Option String := none
  daily_rate : Rat
  tax_amount : Rat := 0
  discount_amount : Rat := 0
  additional_fees : Rat := 0
  insurance_cost : Rat := 0
deriving DecidableEq

/-- `Booking.calculate_total_days` (`bookings/models.py` lines 135-138):
`delta = return_date - pickup_date; return max(1, delta.days)`.
Python's `timedelta.days` is the floor of the difference in whole days,
which on second-valued timestamps is floor division by 86400. -/
def calculate_total_days (b : Booking) : Int :=
  max 1 ((b.return_date - b.pickup_date).fdiv 86400)

/-- `Booking.can_be_cancelled` (`bookings/models.py` lines 146-148):
`self.status in ['pending', 'confirmed'] and self.pickup_date > datetime.now()`. -/
def can_be_cancelled (b : Booking) (now : Int) : Bool :=
  (b.status == "pending" || b.status == "confirmed") && decide (b.pickup_date > now)

/-- `BookingAdmin.confirm_bookings` (`bookings/admin.py` lines 138-142), per
row: `queryset.filter(status='pending').update(status='confirmed')`. -/
def confirm_bookings (b : Booking) : Option Booking :=
  if b.status = "pending" then some { b with status := "confirmed" } else none

/-- `BookingAdmin.start_rentals` (`bookings/admin.py` lines 144-148), per
row: `queryset.filter(status='confirmed').update(status='active')`. -/
def start_rentals (b : Booking) : Option Booking :=
  if b.status = "confirmed" then some { b with status := "active" } else none

/-- `BookingAdmin.complete_rentals` (`bookings/admin.py` lines 150-154), per
row: `queryset.filter(status='active').update(status='completed')`. -/
def complete_rentals (b : Booking) : Option Booking :=
  if b.status = "active" then some { b with status := "completed" } else none

/-- `BookingAdmin.cancel_bookings` (`bookings/admin.py` lines 156-166), per
row: `queryset.filter(status__in=['pending', 'confirmed']).update(status='cancelled',
cancelled_at=timezone.now())`.  Note the filter tests only the status, and the
update touches only `status` and `cancelled_at`. -/
def cancel_bookings (b : Booking) (now : Int) : Option Booking :=
  if b.status = "pending" ∨ b.status = "confirmed" then
    some { b with status := "cancelled", cancelled_at := some now }
  else none

/-- Payment rows (`payment/models.py`, class `Payment`), restricted to the
fields the verified properties touch; `status` defaults to `'pending'` and
`refund_amount` to `0` as in the Django field declarations. -/
structure Payment where
  status : String := "pending"
  amount : Rat
  refund_amount : Rat := 0
deriving DecidableEq

/-- `Payment.is_refundable` (`payment/models.py` lines 144-146):
`self.status == 'completed' and self.refund_amount < self.amount`. -/
def is_refundable (p : Payment) : Bool :=
  p.status == "completed" && decide (p.refund_amount < p.amount)

/-- `PaymentAdmin.refund_payments` (`payment/admin.py` lines 170-174), per
row: `queryset.filter(status='completed').update(status='refunded')`.  The
action takes no refund amount and touches no field other than `status`. -/
def refund_payments (p : Payment) : Option Payment :=
  if p.status = "completed" then some { p with status := "refunded" } else none

/-- The booking in the `completed` terminal state used to witness the
terminal-state property. -/
def bkCompleted : Booking :=
  { status := "completed", pickup_date := 0, return_date := 86400, daily_rate := 100 }

/-- C1: For every booking whose status is a terminal state (`completed`,
`cancelled`, or `no_show`), every status-transition admin action (confirm,
start, complete, cancel) filters the row out — the operation reports no
update for it and the booking's status is unchanged; in particular a
transition from `completed` to any other state always fails. -/
theorem C1_terminal_state_transitions_fail (b : Booking) (now : Int)
    (h : b.status = "completed" ∨ b.status = "cancelled" ∨ b.status = "no_show") :
    confirm_bookings b = none ∧ start_rentals b = none ∧
    complete_rentals b = none ∧ cancel_bookings b now = none := by
  rcases h with h | h | h <;>
    simp [confirm_bookings, start_rentals, complete_rentals, cancel_bookings, h]

/-- Witness for C1 at the concrete `completed` booking. -/
theorem C1_terminal_state_transitions_fail_witness :
    (bkCompleted.status = "completed" ∨ bkCompleted.status = "cancelled" ∨
      bkCompleted.status = "no_show") ∧
    (confirm_bookings bkCompleted = none ∧ start_rentals bkCompleted = none ∧
      complete_rentals bkCompleted = none ∧ cancel_bookings bkCompleted 0 = none) :=
  ⟨Or.inl rfl, C1_terminal_state_transitions_fail bkCompleted 0 (Or.inl rfl)⟩

/-- A `pending` booking whose pickup time (0) is already in the past at
`now = 100`. -/
def bkPastPending : Booking :=
  { status := "pending", pickup_date := 0, return_date := 86400, daily_rate := 100 }

/-- A `confirmed` booking whose pickup time (1000) is still in the future at
`now = 500`. -/
def bkFutureConfirmed : Booking :=
  { status := "confirmed", pickup_date := 1000, return_date := 90000, daily_rate := 100 }

/-- C2 counterexample: at `now = 100` the pickup time of `bkPastPending`
(0) lies in the past, so `can_be_cancelled` is `false`; yet the admin cancel
action — the only cancel operation in the repository — still selects the row
(it filters on status alone) and cancels it, stamping `cancelled_at` and
leaving `cancellation_reason` untouched.  This refutes the claim that
cancelling a booking with a past `pickup_date` fails and leaves the booking
unchanged, and that success records a `cancellation_reason`. -/
theorem C2_cancel_past_pickup_counterexample :
    can_be_cancelled bkPastPending 100 = false ∧
    cancel_bookings bkPastPending 100 =
      some { bkPastPending with status := "cancelled", cancelled_at := some 100 } ∧
    (cancel_bookings bkPastPending 100).isSome = true :=
  ⟨rfl, rfl, rfl⟩

/-- C2 (amended): the admin cancel action succeeds exactly when the status
is `pending` or `confirmed`; the `pickup_date` is not consulted, so a
booking whose pickup time is already past is still cancelled.  On success
the status becomes `cancelled` and `cancelled_at` is stamped with the
current time, while `cancellation_reason` is left unchanged (the record
update below touches only `status` and `cancelled_at`).  The predicate
`can_be_cancelled` additionally requires the pickup time to be in the
future, and whenever it holds the cancel action does succeed. -/
theorem C2_cancel_admin_status_only (b : Booking) (now : Int) :
    ((b.status = "pending" ∨ b.status = "confirmed") →
      cancel_bookings b now =
        some { b with status := "cancelled", cancelled_at := some now }) ∧
    (b.status ≠ "pending" → b.status ≠ "confirmed" → cancel_bookings b now = none) ∧
    (can_be_cancelled b now = true →
      cancel_bookings b now =
        some { b with status := "cancelled", cancelled_at := some now }) := by
  refine ⟨fun h => ?_, fun h1 h2 => ?_, fun h => ?_⟩
  · simp [cancel_bookings, h]
  · simp [cancel_bookings, h1, h2]
  · have hs : b.status = "pending" ∨ b.status = "confirmed" := by
      simp only [can_be_cancelled, Bool.and_eq_true, Bool.or_eq_true, beq_iff_eq] at h
      exact h.1
    simp [cancel_bookings, hs]

/-- Witness for C2 (amended) at the concrete future-pickup confirmed
booking. -/
theorem C2_cancel_admin_status_only_witness :
    cancel_bookings bkFutureConfirmed 500 =
      some { bkFutureConfirmed with status := "cancelled", cancelled_at := some 500 } ∧
    can_be_cancelled bkFutureConfirmed 500 = true :=
  ⟨(C2_cancel_admin_status_only bkFutureConfirmed 500).2.2 (by decide),
   by decide⟩

/-- A completed payment of 100 of which 50 has already been refunded. -/
def payHalfRefunded : Payment :=
  { status := "completed", amount := 100, refund_amount := 50 }

/-- C3 counterexample: refunding `payHalfRefunded` sets the status to
`refunded` while leaving `refund_amount = 50` strictly below
`amount = 100`.  The admin action adds no refund amount `R` at all, so the
refunded total stays below `amount`, yet the resulting status is
`refunded`, not `partially_refunded` — refuting the claimed
status-selection rule (and the existence of a partial-refund path). -/
theorem C3_refund_status_counterexample :
    refund_payments payHalfRefunded =
      some { status := "refunded", amount := 100, refund_amount := 50 } ∧
    decide ((50 : Rat) = (100 : Rat)) = false :=
  ⟨rfl, rfl⟩

/-- A fresh completed payment with nothing refunded yet. -/
def payFresh : Payment := { status := "completed", amount := 100 }

/-- C3 (amended): the admin refund action takes no refund amount; it
succeeds exactly when the payment status is `completed` and then
unconditionally sets the status to `refunded` — never `partially_refunded`
— leaving `amount` and `refund_amount` unchanged (the record update below
touches only `status`).  `is_refundable` additionally requires
`refund_amount < amount`, and whenever it holds the refund action does
succeed. -/
theorem C3_refund_admin_unconditional (p : Payment) :
    (p.status = "completed" →
      refund_payments p = some { p with status := "refunded" }) ∧
    (p.status ≠ "completed" → refund_payments p = none) ∧
    (is_refundable p = true →
      refund_payments p = some { p with status := "refunded" }) := by
  refine ⟨fun h => ?_, fun h => ?_, fun h => ?_⟩
  · simp [refund_payments, h]
  · simp [refund_payments, h]
  · have hs : p.status = "completed" := by
      simp only [is_refundable, Bool.and_eq_true, beq_iff_eq] at h
      exact h.1
    simp [refund_payments, hs]

/-- Witness for C3 (amended) at the concrete fresh completed payment. -/
theorem C3_refund_admin_unconditional_witness :
    refund_payments payFresh = some { payFresh with status := "refunded" } :=
  (C3_refund_admin_unconditional payFresh).1 rfl

/-- C4: the refund operation preserves the invariant
`refund_amount ≤ amount`: it never modifies `refund_amount` or `amount`
(whether the row is selected or filtered out), so a payment satisfying the
invariant before the operation still satisfies it afterwards. -/
theorem C4_refund_preserves_refund_le_amount (p : Payment)
    (h : p.refund_amount ≤ p.amount) :
    ((refund_payments p).getD p).refund_amount ≤
      ((refund_payments p).getD p).amount := by
  unfold refund_payments
  split <;> simpa using h

/-- Witness for C4 at the concrete half-refunded payment. -/
theorem C4_refund_preserves_refund_le_amount_witness :
    payHalfRefunded.refund_amount ≤ payHalfRefunded.amount ∧
    ((refund_payments payHalfRefunded).getD payHalfRefunded).refund_amount ≤
      ((refund_payments payHalfRefunded).getD payHalfRefunded).amount :=
  ⟨by norm_num [payHalfRefunded],
   C4_refund_preserves_refund_le_amount payHalfRefunded (by norm_num [payHalfRefunded])⟩

/-- A booking whose return time equals its pickup time. -/
def bkSameDay : Booking :=
  { status := "pending", pickup_date := 0, return_date := 0, daily_rate := 100 }

/-- C5: `calculate_total_days` returns `max(1, whole-day difference)`, so
it is at least 1 for every booking, and it equals exactly 1 when the return
time equals the pickup time. -/
theorem C5_total_days_at_least_one (b : Booking) :
    calculate_total_days b =
      max 1 ((b.return_date - b.pickup_date).fdiv 86400) ∧
    1 ≤ calculate_total_days b ∧
    (b.return_date = b.pickup_date → calculate_total_days b = 1) := by
  refine ⟨rfl, le_max_left _ _, fun h => ?_⟩
  unfold calculate_total_days
  rw [h, sub_self]
  decide

/-- Witness for C5 at the concrete zero-length booking. -/
theorem C5_total_days_at_least_one_witness :
    1 ≤ calculate_total_days bkSameDay ∧ calculate_total_days bkSameDay = 1 :=
  ⟨(C5_total_days_at_least_one bkSameDay).2.1,
   (C5_total_days_at_least_one bkSameDay).2.2 rfl⟩

/-- Modelled from the spec: the repository declares the Booking pricing
fields (`bookings/models.py` lines 52-60: `subtotal`, `tax_amount`,
`discount_amount`, `additional_fees`, `insurance_cost`, `total_amount`) but
contains no code that computes them (there is no booking serializer or
view); the Pricing Calculator of spec section 4.2 is modelled from the
spec's words: `subtotal = daily_rate x total_days`. -/
def compute_subtotal (daily_rate : Rat) (total_days : Int) : Rat :=
  daily_rate * (total_days : Rat)

/-- Modelled from the spec: `total_amount = subtotal + tax_amount +
additional_fees + insurance_cost - discount_amount` (spec section 4.2);
no source code computes `total_amount`. -/
def compute_total_amount
    (subtotal tax_amount additional_fees insurance_cost discount_amount : Rat) : Rat :=
  subtotal + tax_amount + additional_fees + insurance_cost - discount_amount

/-- The spec-modelled pricing calculator composed with the source's
`calculate_total_days`. -/
def booking_total_amount (b : Booking) : Rat :=
  compute_total_amount (compute_subtotal b.daily_rate (calculate_total_days b))
    b.tax_amount b.additional_fees b.insurance_cost b.discount_amount

/-- A 3-day rental at a daily rate of 100 with no tax, discount, fees or
insurance (pickup at 0, return exactly 3 x 86400 seconds later). -/
def bkThreeDay : Booking :=
  { status := "pending", pickup_date := 0, return_date := 259200, daily_rate := 100 }

/-- C6: the total amount satisfies `total_amount = daily_rate x total_days
+ tax_amount + additional_fees + insurance_cost - discount_amount`, and at
`daily_rate = 100` for a 3-day rental with all adjustments zero it equals
exactly 300. -/
theorem C6_total_amount_formula (b : Booking)
    (hrate : b.daily_rate = 100)
    (hdays : b.return_date = b.pickup_date + 3 * 86400)
    (htax : b.tax_amount = 0) (hdisc : b.discount_amount = 0)
    (hfees : b.additional_fees = 0) (hins : b.insurance_cost = 0) :
    booking_total_amount b =
      b.daily_rate * ((calculate_total_days b : Int) : Rat) + b.tax_amount +
        b.additional_fees + b.insurance_cost - b.discount_amount ∧
    booking_total_amount b = 300 := by
  constructor
  · rfl
  · have hd : calculate_total_days b = 3 := by
      unfold calculate_total_days
      rw [hdays]
      have : b.pickup_date + 3 * 86400 - b.pickup_date = 259200 := by ring
      rw [this]
      decide
    unfold booking_total_amount compute_total_amount compute_subtotal
    rw [hd, hrate, htax, hdisc, hfees, hins]
    norm_num

/-- Witness for C6 at the concrete 3-day, rate-100 booking. -/
theorem C6_total_amount_formula_witness :
    booking_total_amount bkThreeDay = 300 :=
  (C6_total_amount_formula bkThreeDay rfl (by decide) rfl rfl rfl rfl).2

/-- Add-on catalogue rows (`bookings/models.py`, class `BookingAddOn`),
restricted to the fields the verified properties touch; `pricing_type`
defaults to `'per_day'` as in the Django field declaration. -/
structure BookingAddOn where
  name : String
  addon_type : String
  pricing_type : String := "per_day"
  price : Rat
deriving DecidableEq

/-- Add-on assignment rows (`bookings/models.py`, class
`BookingAddOnAssignment`); `quantity` defaults to 1 as in the Django field
declaration. -/
structure BookingAddOnAssignment where
  addon : BookingAddOn
  quantity : Nat := 1
  unit_price : Rat
  total_price : Rat
deriving DecidableEq

/-- `BookingAddOnAssignment.save` (`bookings/models.py` lines 229-231):
`self.total_price = self.unit_price * self.quantity`.  The booking (and in
particular its subtotal) and the add-on's `pricing_type` are not consulted. -/
def assignment_save (a : BookingAddOnAssignment) : BookingAddOnAssignment :=
  { a with total_price := a.unit_price * (a.quantity : Rat) }

/-- A percentage-type add-on (10, read as 10 percent by the spec). -/
def gpsPercent : BookingAddOn :=
  { name := "GPS Navigation", addon_type := "gps", pricing_type := "percentage", price := 10 }

/-- An assignment of the percentage-type add-on: quantity 2 at unit price
10, attached (in the scenario) to a booking with subtotal 300. -/
def asgPercent : BookingAddOnAssignment :=
  { addon := gpsPercent, quantity := 2, unit_price := 10, total_price := 0 }

/-- A flat per-day add-on with the same unit price and quantity. -/
def asgFlat : BookingAddOnAssignment :=
  { addon := { name := "Child Seat", addon_type := "child_seat", price := 10 },
    quantity := 2, unit_price := 10, total_price := 0 }

/-- C8 counterexample: for the percentage-type assignment `asgPercent`
(price 10, attached to a booking with subtotal 300) the saved charge is
`unit_price x quantity = 20`, whereas a charge computed as the add-on's
percentage of the booking's subtotal would be `300 x 10 / 100 = 30`; the
two differ, refuting the claim that percentage-type add-ons are charged as
a percentage of the subtotal rather than a flat price.  (Indeed
`assignment_save` takes no booking at all, so the charge cannot depend on
any subtotal.) -/
theorem C8_percentage_addon_counterexample :
    asgPercent.addon.pricing_type = "percentage" ∧
    (assignment_save asgPercent).total_price = 20 ∧
    (300 : Rat) * (asgPercent.addon.price / 100) = 30 ∧
    decide (((assignment_save asgPercent).total_price : Rat) =
      (300 : Rat) * (asgPercent.addon.price / 100)) = false := by
  refine ⟨rfl, by norm_num [assignment_save, asgPercent], ?_, ?_⟩
  · norm_num [asgPercent, gpsPercent]
  · simp only [decide_eq_false_iff_not]
    norm_num [assignment_save, asgPercent, gpsPercent]

/-- C8 (amended): for every add-on assignment, whatever the add-on's
`pricing_type` — including `percentage` — the saved charge is
`unit_price x quantity`; no percentage-of-subtotal computation exists, so
two assignments with the same unit price and quantity always receive the
same charge regardless of pricing type or booking. -/
theorem C8_addon_total_flat (a : BookingAddOnAssignment) :
    (assignment_save a).total_price = a.unit_price * (a.quantity : Rat) ∧
    (∀ a2 : BookingAddOnAssignment, a2.unit_price = a.unit_price →
      a2.quantity = a.quantity →
      (assignment_save a2).total_price = (assignment_save a).total_price) := by
  refine ⟨rfl, fun a2 h1 h2 => ?_⟩
  simp [assignment_save, h1, h2]

/-- Witness for C8 (amended): the flat and the percentage assignments share
unit price and quantity and receive the same saved charge of 20. -/
theorem C8_addon_total_flat_witness :
    (assignment_save asgFlat).total_price = asgFlat.unit_price * (asgFlat.quantity : Rat) ∧
    (assignment_save asgPercent).total_price = (assignment_save asgFlat).total_price :=
  ⟨(C8_addon_total_flat asgFlat).1,
   (C8_addon_total_flat asgFlat).2 asgPercent rfl rfl⟩

/-- HTTP responses of the logout endpoint (`authentication/views.py`,
`LogoutView.post`): a body message and a status code. -/
structure LogoutResponse where
  message : String
  statusCode : Nat
deriving DecidableEq

/-- The inner `try/except` of `LogoutView.post` (`authentication/views.py`
lines 236-241): when a refresh token is supplied, its blacklisting is
attempted and every exception is swallowed (`except Exception: pass`). -/
def blacklist_step (refresh_token : Option String)
    (blacklist : String → Except String Unit) : Except String Unit :=
  match refresh_token with
  | none => Except.ok ()
  | some t =>
    match blacklist t with
    | Except.ok _ => Except.ok ()
    | Except.error _ => Except.ok ()

/-- `LogoutView.post` (`authentication/views.py` lines 225-250): the
session update runs inside the outer `try` (its failure yields the 400
`'Logout failed'` response); then the blacklist step runs, and the success
response `'Logout successful'` / 200 is returned. -/
def logout_post (session_update : Except String Unit)
    (refresh_token : Option String)
    (blacklist : String → Except String Unit) : LogoutResponse :=
  match session_update with
  | Except.error _ => { message := "Logout failed", statusCode := 400 }
  | Except.ok _ =>
    match blacklist_step refresh_token blacklist with
    | Except.ok _ => { message := "Logout successful", statusCode := 200 }
    | Except.error _ => { message := "Logout failed", statusCode := 400 }

/-- C9: for every authenticated logout request (session update succeeding),
whatever refresh token is supplied and whatever its blacklisting does —
including raising an error — the response is `'Logout successful'` with
HTTP 200: blacklisting failures are swallowed and never change the
reported outcome. -/
theorem C9_logout_always_succeeds (refresh_token : Option String)
    (blacklist : String → Except String Unit) :
    logout_post (Except.ok ()) refresh_token blacklist =
      { message := "Logout successful", statusCode := 200 } := by
  cases refresh_token with
  | none => rfl
  | some t => cases hbt : blacklist t <;> simp [logout_post, blacklist_step, hbt]

/-- Witness for C9: even a blacklisting function that always raises yields
the success response. -/
theorem C9_logout_always_succeeds_witness :
    logout_post (Except.ok ()) (some "tok") (fun _ => Except.error "boom") =
      { message := "Logout successful", statusCode := 200 } :=
  C9_logout_always_succeeds (some "tok") (fun _ => Except.error "boom")

/-- Vehicle rows (`vehicles/models.py`, class `Vehicle`), restricted to the
fields the verified property touches; `status` defaults to `'available'`
and `is_active` to `True` as in the Django field declarations. -/
structure Vehicle where
  status : String := "available"
  is_active : Bool := true
deriving DecidableEq

/-- `Vehicle.is_available_for_booking` (`vehicles/models.py` lines
179-180): `self.status == 'available' and self.is_active`. -/
def is_available_for_booking (v : Vehicle) : Bool :=
  v.status == "available" && v.is_active

/-- An inactive vehicle whose status is nevertheless `available`. -/
def vehInactive : Vehicle := { status := "available", is_active := false }

/-- C10: `is_available_for_booking` holds exactly when the status is
`available` and the active flag is set; in particular an inactive vehicle
is never bookable, even when its status is `available`. -/
theorem C10_available_iff_status_and_active (v : Vehicle) :
    (is_available_for_booking v = true ↔
      (v.status = "available" ∧ v.is_active = true)) ∧
    (v.is_active = false → is_available_for_booking v = false) := by
  constructor
  · simp [is_available_for_booking]
  · intro h
    simp [is_available_for_booking, h]

/-- Witness for C10 at the concrete inactive-but-available vehicle. -/
theorem C10_available_iff_status_and_active_witness :
    vehInactive.is_active = false ∧ is_available_for_booking vehInactive = false :=
  ⟨rfl, (C10_available_iff_status_and_active vehInactive).2 rfl⟩

/-- Python's `str.startswith`, on the character lists of the strings. -/
def strStartsWith (s pre : String) : Bool :=
  pre.data.isPrefixOf s.data

/-- Python's `s[-4:]`: the last four characters of `s` (all of `s` when it
is shorter than four characters, matching Python slice semantics via
truncating `Nat` subtraction). -/
def pyLastFour (s : String) : String :=
  String.mk (s.data.drop (s.data.length - 4))

/-- Python's `f"{n:04d}"` for a natural number: decimal digits zero-padded
on the left to width four. -/
def pad4 (n : Nat) : String :=
  let s := toString n
  if s.length < 4 then String.mk (List.replicate (4 - s.length) '0') ++ s else s

/-- Python's `int(...)` on a string of decimal digits: the value of the
digits read left to right.  (Python raises on non-digit input, a case no
generated invoice number exercises; the embedding is total.) -/
def pyInt (s : String) : Nat :=
  s.data.foldl (fun n c => n * 10 + (c.toNat - Char.toNat '0')) 0

/-- `Invoice.generate_invoice_number` (`payment/models.py` lines 219-234),
with the invoice table abstracted as the list of existing invoice-number
strings: filter the numbers starting with `INV{year}`, take the greatest in
string order (`order_by('-invoice_number').first()`), parse its last four
characters as the counter and add one, else start at one; format the
counter as `%04d` after the prefix. -/
def generate_invoice_number (year : Nat) (store : List String) : String :=
  match (store.filter (fun s => strStartsWith s ("INV" ++ toString year))).max? with
  | some last => ("INV" ++ toString year) ++ pad4 (pyInt (pyLastFour last) + 1)
  | none => ("INV" ++ toString year) ++ pad4 1

lemma isPrefixOf_append_self (l₁ l₂ : List Char) : l₁.isPrefixOf (l₁ ++ l₂) = true := by
  induction l₁ with
  | nil => simp [List.isPrefixOf]
  | cons a t ih => simp [List.isPrefixOf, ih]

lemma strStartsWith_append_self (a b : String) : strStartsWith (a ++ b) a = true := by
  show a.data.isPrefixOf (a.data ++ b.data) = true
  exact isPrefixOf_append_self a.data b.data

lemma drop_length_append (l₁ l₂ : List Char) : (l₁ ++ l₂).drop l₁.length = l₂ := by
  induction l₁ with
  | nil => rfl
  | cons a t ih => simp [ih]

lemma pyLastFour_append (a b : String) (hb : b.data.length = 4) :
    pyLastFour (a ++ b) = b := by
  unfold pyLastFour
  have hd : (a ++ b).data = a.data ++ b.data := rfl
  rw [hd, List.length_append, hb, Nat.add_sub_cancel, drop_length_append]

lemma filter_none_of_all_false (p : String → Bool) (l : List String)
    (hl : ∀ s ∈ l, p s = false) : l.filter p = [] := by
  induction l with
  | nil => rfl
  | cons a t ih =>
    have ha := hl a (List.mem_cons_self a t)
    have ht := ih (fun s hs => hl s (List.mem_cons_of_mem a hs))
    simp [List.filter_cons, ha, ht]

/-- C7: under serialized creation, invoice numbering within one calendar
year is sequential: over a store holding no invoice number of year `year`
yet, the first generated number is `INV{year}0001`, and generating again
with that number stored yields `INV{year}0002`. -/
theorem C7_invoice_numbers_sequential (year : Nat) (store : List String)
    (h : ∀ s ∈ store, strStartsWith s ("INV" ++ toString year) = false) :
    generate_invoice_number year store = ("INV" ++ toString year) ++ "0001" ∧
    generate_invoice_number year (generate_invoice_number year store :: store) =
      ("INV" ++ toString year) ++ "0002" := by
  have hfil : store.filter (fun s => strStartsWith s ("INV" ++ toString year)) = [] :=
    filter_none_of_all_false _ store h
  have h1 : generate_invoice_number year store = ("INV" ++ toString year) ++ "0001" := by
    unfold generate_invoice_number
    rw [hfil]
    rfl
  refine ⟨h1, ?_⟩
  rw [h1]
  have hhead : strStartsWith (("INV" ++ toString year) ++ "0001")
      ("INV" ++ toString year) = true := strStartsWith_append_self _ _
  have hfil2 : ((("INV" ++ toString year) ++ "0001") :: store).filter
      (fun s => strStartsWith s ("INV" ++ toString year)) =
      [("INV" ++ toString year) ++ "0001"] := by
    simp [List.filter_cons, hhead, hfil]
  unfold generate_invoice_number
  rw [hfil2]
  show ("INV" ++ toString year) ++
      pad4 (pyInt (pyLastFour (("INV" ++ toString year) ++ "0001")) + 1) =
    ("INV" ++ toString year) ++ "0002"
  rw [pyLastFour_append _ "0001" rfl]
  rfl

/-- Witness for C7: the two numbers generated serially for the year 2025
over an initially empty invoice table. -/
theorem C7_invoice_numbers_sequential_witness :
    generate_invoice_number 2025 [] = ("INV" ++ toString 2025) ++ "0001" ∧
    generate_invoice_number 2025 [generate_invoice_number 2025 []] =
      ("INV" ++ toString 2025) ++ "0002" :=
  C7_invoice_numbers_sequential 2025 [] (by simp)

end CarHire
